import Mathlib

/-!
Verification of the NuttX TCP connection-state monitor
(`net/tcp/tcp_monitor.c`) against its natural-language specification.

The socket status word `s_flags` and the TCP event word are embedded as
`Nat` bit sets.  The C idiom `x &= ~m` is embedded as `x ^^^ (x &&& m)`,
which agrees with it bit for bit (`testBit_landNot` below).  Sockets are
addressed by a numeric id; the world state `Net` carries the socket map,
the single TCP connection of interest, and the device's free callback
pool.
-/

namespace TcpMonitor

/-- Modelled from the spec: socket status flag masks (`_SF_*` in the
socket layer headers, which are outside this source tree).  Only
distinctness of the bit positions matters. -/
def _SF_NONBLOCK : Nat := 0x01

/-- Socket status bit: the socket is bound to a local address. -/
def _SF_BOUND : Nat := 0x04

/-- Socket status bit: the socket is connected. -/
def _SF_CONNECTED : Nat := 0x08

/-- Socket status bit: the socket was gracefully disconnected. -/
def _SF_CLOSED : Nat := 0x10

/-- Modelled from the spec: TCP event flag masks (`tcp.h` / `devif.h`,
outside this source tree).  Only distinctness matters. -/
def TCP_CLOSE : Nat := 0x20

/-- Event bit: the remote host aborted the connection. -/
def TCP_ABORT : Nat := 0x40

/-- Event bit: the three-way handshake completed. -/
def TCP_CONNECTED : Nat := 0x80

/-- Event bit: the connection aborted due to too many retransmissions. -/
def TCP_TIMEDOUT : Nat := 0x100

/-- Event bit: the network device went down. -/
def NETDEV_DOWN : Nat := 0x2000

/-- All loss-of-connection events, as in `tcp.h`. -/
def TCP_DISCONN_EVENTS : Nat := TCP_CLOSE ||| TCP_ABORT ||| TCP_TIMEDOUT ||| NETDEV_DOWN

/-- Embedding of the C idiom `x & ~m` on a machine word: clear in `x`
every bit set in `m`. -/
def landNot (x m : Nat) : Nat := x ^^^ (x &&& m)

/-- Embedding of `_SS_ISNONBLOCK(s_flags)`: test the nonblocking bit. -/
def _SS_ISNONBLOCK (flags : Nat) : Bool := flags &&& _SF_NONBLOCK != 0

/-- TCP protocol states read by the monitor (`tcpstateflags`). -/
inductive TcpState where
  | TCP_CLOSED
  | TCP_LISTEN
  | TCP_SYN_SENT
  | TCP_SYN_RCVD
  | TCP_ESTABLISHED
  | TCP_CLOSE_WAIT
deriving DecidableEq, Repr

/-- The monitor registers exactly one kind of handler,
`tcp_monitor_event`; a callback's `event` field is either that handler
or NULL. -/
inductive Handler where
  | monitorEvent
deriving DecidableEq, Repr

/-- A devif callback record: filter mask `flags`, opaque owner pointer
`priv` (a socket id here), and handler `event`. -/
structure Cb where
  flags : Nat
  priv : Option Nat
  event : Option Handler
deriving DecidableEq, Repr

/-- The connection surface the monitor observes: protocol state and the
head of the connection-event callback list (`connevents`). -/
structure Conn where
  tcpstateflags : TcpState
  connevents : List Cb
deriving DecidableEq, Repr

/-- A socket's monitor-visible state: the status flag word and the
socket error number. -/
structure SockState where
  s_flags : Nat
  s_error : Int
deriving DecidableEq, Repr

/-- World state: all sockets (by id), the TCP connection of interest,
and the device's free callback pool (spec §6: a fixed pool from which
`devif_callback_alloc` pops and to which free pushes). -/
structure Net where
  socks : Nat → SockState
  conn : Conn
  pool : List Cb

/-- Return code `OK`. -/
def OK : Int := 0

/-- The errno returned (negated) when the socket is not connected. -/
def ENOTCONN : Int := 107

/-- Update one socket in the socket map. -/
def updSock (socks : Nat → SockState) (sid : Nat) (s : SockState) : Nat → SockState :=
  fun t => if t = sid then s else socks t

/-- Embedding of `tcp_close_connection(psock, flags)`: set the socket status bits for
a loss-of-connection event (graceful if `TCP_CLOSE`, rude if
`TCP_ABORT`/`TCP_TIMEDOUT`/`NETDEV_DOWN`). -/
def tcp_close_connection (psock : SockState) (flags : Nat) : SockState :=
  if flags &&& TCP_CLOSE ≠ 0 then
    { psock with s_flags := landNot psock.s_flags _SF_CONNECTED ||| _SF_CLOSED }
  else if flags &&& (TCP_ABORT ||| TCP_TIMEDOUT ||| NETDEV_DOWN) ≠ 0 then
    { psock with s_flags := landNot psock.s_flags (_SF_CONNECTED ||| _SF_CLOSED) }
  else
    psock

/-- Embedding of `tcp_monitor_event(dev, pvconn, pvpriv, flags)`: the monitor's
handler.  `pvpriv` is the owner socket id (or NULL); returns the
updated socket map and the (unchanged) flags. -/
def tcp_monitor_event (pvpriv : Option Nat) (flags : Nat)
    (socks : Nat → SockState) : (Nat → SockState) × Nat :=
  match pvpriv with
  | none => (socks, flags)
  | some sid =>
      if flags &&& TCP_DISCONN_EVENTS ≠ 0 then
        (updSock socks sid (tcp_close_connection (socks sid) flags), flags)
      else if flags &&& TCP_CONNECTED ≠ 0 then
        (updSock socks sid
          { s_flags := landNot ((socks sid).s_flags ||| (_SF_BOUND ||| _SF_CONNECTED)) _SF_CLOSED,
            s_error := OK }, flags)
      else
        (socks, flags)

/-- Modelled from the spec: the generic dispatch primitive
(`tcp_callback` / `devif_conn_event` in `net/devif`, outside this source
tree).  It walks the callback list, capturing `next` before each
invocation, invokes each callback whose filter intersects the delivered
flags, and threads the flags each handler returns to the subsequent
callbacks. -/
def devif_conn_event (cbs : List Cb) (flags : Nat)
    (socks : Nat → SockState) : (Nat → SockState) × Nat :=
  match cbs with
  | [] => (socks, flags)
  | cb :: rest =>
      if flags &&& cb.flags ≠ 0 then
        match cb.event with
        | some Handler.monitorEvent =>
            let r := tcp_monitor_event cb.priv flags socks
            devif_conn_event rest r.2 r.1
        | none => devif_conn_event rest flags socks
      else
        devif_conn_event rest flags socks

/-- Modelled from the spec: freeing every callback record of a list
back to the device pool (`devif_conn_callback_free` in a loop); each
freed record is pushed onto the pool free list. -/
def freeAllCb (cbs pool : List Cb) : List Cb :=
  match cbs with
  | [] => pool
  | cb :: rest => freeAllCb rest (cb :: pool)

/-- Embedding of `tcp_shutdown_monitor(conn, flags)`: dispatch `flags` to every
registered callback, then free all connection event callback
structures. -/
def tcp_shutdown_monitor (net : Net) (flags : Nat) : Net :=
  { socks := (devif_conn_event net.conn.connevents flags net.socks).1,
    conn := { tcpstateflags := net.conn.tcpstateflags, connevents := [] },
    pool := freeAllCb net.conn.connevents net.pool }

/-- Embedding of `tcp_start_monitor(psock)`: if the connection is unusable,
synthesize a `TCP_CLOSE` shutdown and fail with `-ENOTCONN`; otherwise
allocate (if the pool permits) a callback record filtering the
disconnect events, plus `TCP_CONNECTED` for a nonblocking connect in
`SYN_SENT`.  Allocation failure is not surfaced. -/
def tcp_start_monitor (net : Net) (sid : Nat) : Net × Int :=
  let nonblock_conn : Bool :=
    decide (net.conn.tcpstateflags = TcpState.TCP_SYN_SENT) &&
      _SS_ISNONBLOCK (net.socks sid).s_flags
  if ¬(net.conn.tcpstateflags = TcpState.TCP_ESTABLISHED ∨
       net.conn.tcpstateflags = TcpState.TCP_SYN_RCVD ∨ nonblock_conn = true) then
    (tcp_shutdown_monitor net TCP_CLOSE, -ENOTCONN)
  else
    match net.pool with
    | [] => (net, OK)
    | _ :: poolRest =>
        ({ socks := net.socks,
           conn := { tcpstateflags := net.conn.tcpstateflags,
                     connevents :=
                       { flags := TCP_DISCONN_EVENTS |||
                           (if nonblock_conn then TCP_CONNECTED else 0),
                         priv := some sid,
                         event := some Handler.monitorEvent } :: net.conn.connevents },
           pool := poolRest }, OK)

/-- Embedding of `tcp_stop_monitor(conn, flags)`: thin wrapper over
`tcp_shutdown_monitor`. -/
def tcp_stop_monitor (net : Net) (flags : Nat) : Net :=
  tcp_shutdown_monitor net flags

/-- The linear scan of `tcp_close_monitor`: first callback record whose
`priv` equals the socket. -/
def findCb (sid : Nat) : List Cb → Option Cb
  | [] => none
  | cb :: rest => if cb.priv = some sid then some cb else findCb sid rest

/-- Removal of the first callback record whose `priv` equals the socket
(the effect of `devif_conn_callback_free` on the found record). -/
def removeFirstCb (sid : Nat) : List Cb → List Cb
  | [] => []
  | cb :: rest => if cb.priv = some sid then rest else cb :: removeFirstCb sid rest

/-- Embedding of `tcp_close_monitor(psock)`: free the (at most one) callback record
registered for this socket, then mark the socket closed via
`tcp_close_connection(psock, TCP_CLOSE)`.  Other dup'd sockets are not
notified (the notification block in the source is disabled). -/
def tcp_close_monitor (net : Net) (sid : Nat) : Net :=
  let net1 : Net :=
    match findCb sid net.conn.connevents with
    | some cb =>
        { socks := net.socks,
          conn := { tcpstateflags := net.conn.tcpstateflags,
                    connevents := removeFirstCb sid net.conn.connevents },
          pool := cb :: net.pool }
    | none => net
  { socks := updSock net1.socks sid (tcp_close_connection (net1.socks sid) TCP_CLOSE),
    conn := net1.conn,
    pool := net1.pool }

/-- The nullified callback record written by `tcp_lost_connection`:
`cb->flags = 0; cb->priv = NULL; cb->event = NULL`. -/
def nullCb : Cb := { flags := 0, priv := none, event := none }

/-- Embedding of `tcp_lost_connection(psock, cb, flags)`: nullify the engine-held
callback record (identified by its position in the connection's list)
so it is not re-invoked, mark this socket via `tcp_close_connection`,
then run `tcp_shutdown_monitor` for all sockets. -/
def tcp_lost_connection (net : Net) (sid : Nat) (cbi : Option Nat) (flags : Nat) : Net :=
  let net1 : Net :=
    match cbi with
    | some i =>
        { socks := net.socks,
          conn := { tcpstateflags := net.conn.tcpstateflags,
                    connevents := net.conn.connevents.set i nullCb },
          pool := net.pool }
    | none => net
  let net2 : Net :=
    { socks := updSock net1.socks sid (tcp_close_connection (net1.socks sid) flags),
      conn := net1.conn,
      pool := net1.pool }
  tcp_shutdown_monitor net2 flags

/-- Observable: the `_SF_CONNECTED` bit of a socket's status word. -/
def connectedBit (s : SockState) : Bool := s.s_flags.testBit 3

/-- Observable: the `_SF_CLOSED` bit of a socket's status word. -/
def closedBit (s : SockState) : Bool := s.s_flags.testBit 4

/-- Observable: the `_SF_BOUND` bit of a socket's status word. -/
def boundBit (s : SockState) : Bool := s.s_flags.testBit 2

/-- Observable: the `_SF_NONBLOCK` bit of a socket's status word. -/
def nonblockBit (s : SockState) : Bool := s.s_flags.testBit 0

/-- The embedded `x & ~m` clears exactly the bits of `m`. -/
theorem testBit_landNot (x m i : Nat) :
    (landNot x m).testBit i = (x.testBit i && !(m.testBit i)) := by
  simp only [landNot, Nat.testBit_xor, Nat.testBit_and]
  cases x.testBit i <;> cases m.testBit i <;> rfl

/-- Intersection with a single-bit mask is nonzero exactly when that bit
is set. -/
theorem and_two_pow_ne_zero (f k : Nat) : f &&& 2 ^ k ≠ 0 ↔ f.testBit k = true := by
  constructor
  · intro h
    by_contra hb
    apply h
    apply Nat.eq_of_testBit_eq
    intro i
    simp only [Nat.testBit_and, Nat.testBit_two_pow, Nat.zero_testBit]
    rcases Decidable.em (k = i) with hk | hk
    · subst hk
      simp [Bool.eq_false_iff.mpr (fun hh => hb hh)]
    · simp [hk]
  · intro h hz
    have hbit : (f &&& 2 ^ k).testBit k = false := by rw [hz]; simp
    rw [Nat.testBit_and, Nat.testBit_two_pow_self] at hbit
    simp [h] at hbit

/-- A bitwise-or is nonzero exactly when one operand is. -/
theorem lor_ne_zero (x y : Nat) : x ||| y ≠ 0 ↔ x ≠ 0 ∨ y ≠ 0 := by
  constructor
  · intro h
    by_contra hc
    push_neg at hc
    apply h
    rw [hc.1, hc.2]
    rfl
  · rintro (hx | hy) h0
    · apply hx
      apply Nat.eq_of_testBit_eq
      intro i
      have := congrArg (fun n => Nat.testBit n i) h0
      simp only [Nat.testBit_or, Nat.zero_testBit] at this
      simpa using And.left (by simpa using this)
    · apply hy
      apply Nat.eq_of_testBit_eq
      intro i
      have := congrArg (fun n => Nat.testBit n i) h0
      simp only [Nat.testBit_or, Nat.zero_testBit] at this
      simpa using And.right (by simpa using this)

/-- Bit profile of the `_SF_NONBLOCK` mask. -/
theorem SF_NONBLOCK_testBit (i : Nat) : _SF_NONBLOCK.testBit i = decide (0 = i) := by
  rw [show _SF_NONBLOCK = 2 ^ 0 from rfl, Nat.testBit_two_pow]

/-- Bit profile of the `_SF_BOUND` mask. -/
theorem SF_BOUND_testBit (i : Nat) : _SF_BOUND.testBit i = decide (2 = i) := by
  rw [show _SF_BOUND = 2 ^ 2 from rfl, Nat.testBit_two_pow]

/-- Bit profile of the `_SF_CONNECTED` mask. -/
theorem SF_CONNECTED_testBit (i : Nat) : _SF_CONNECTED.testBit i = decide (3 = i) := by
  rw [show _SF_CONNECTED = 2 ^ 3 from rfl, Nat.testBit_two_pow]

/-- Bit profile of the `_SF_CLOSED` mask. -/
theorem SF_CLOSED_testBit (i : Nat) : _SF_CLOSED.testBit i = decide (4 = i) := by
  rw [show _SF_CLOSED = 2 ^ 4 from rfl, Nat.testBit_two_pow]

/-- Testing the `TCP_CLOSE` mask tests bit 5. -/
theorem and_TCP_CLOSE_ne (f : Nat) : f &&& TCP_CLOSE ≠ 0 ↔ f.testBit 5 = true := by
  rw [show TCP_CLOSE = 2 ^ 5 from rfl]
  exact and_two_pow_ne_zero f 5

/-- Testing the `TCP_CONNECTED` mask tests bit 7. -/
theorem and_TCP_CONNECTED_ne (f : Nat) : f &&& TCP_CONNECTED ≠ 0 ↔ f.testBit 7 = true := by
  rw [show TCP_CONNECTED = 2 ^ 7 from rfl]
  exact and_two_pow_ne_zero f 7

/-- The rude-event mask splits into its three single-bit tests. -/
theorem and_rude_ne (f : Nat) :
    f &&& (TCP_ABORT ||| TCP_TIMEDOUT ||| NETDEV_DOWN) ≠ 0 ↔
      (f.testBit 6 = true ∨ f.testBit 8 = true ∨ f.testBit 13 = true) := by
  rw [show TCP_ABORT ||| TCP_TIMEDOUT ||| NETDEV_DOWN =
        2 ^ 6 ||| (2 ^ 8 ||| 2 ^ 13) from rfl,
      Nat.and_or_distrib_left, Nat.and_or_distrib_left,
      lor_ne_zero, lor_ne_zero,
      and_two_pow_ne_zero, and_two_pow_ne_zero, and_two_pow_ne_zero]

/-- Matching `TCP_DISCONN_EVENTS` splits into graceful and rude
matching. -/
theorem and_disconn_split (f : Nat) :
    f &&& TCP_DISCONN_EVENTS ≠ 0 ↔
      f &&& TCP_CLOSE ≠ 0 ∨ f &&& (TCP_ABORT ||| TCP_TIMEDOUT ||| NETDEV_DOWN) ≠ 0 := by
  rw [show TCP_DISCONN_EVENTS =
        TCP_CLOSE ||| (TCP_ABORT ||| TCP_TIMEDOUT ||| NETDEV_DOWN) from rfl,
      Nat.and_or_distrib_left, lor_ne_zero]

/-- Graceful branch of `tcp_close_connection`: `TCP_CLOSE` set clears
`CONNECTED` and sets `CLOSED`. -/
theorem close_connection_graceful (s : SockState) (f : Nat) (h : f &&& TCP_CLOSE ≠ 0) :
    connectedBit (tcp_close_connection s f) = false ∧
    closedBit (tcp_close_connection s f) = true := by
  unfold tcp_close_connection
  rw [if_pos h]
  constructor
  · simp [connectedBit, Nat.testBit_or, testBit_landNot, SF_CONNECTED_testBit,
      SF_CLOSED_testBit]
  · simp [closedBit, Nat.testBit_or, testBit_landNot, SF_CONNECTED_testBit,
      SF_CLOSED_testBit]

/-- Rude branch of `tcp_close_connection`: no `TCP_CLOSE` but some rude
bit clears both `CONNECTED` and `CLOSED`. -/
theorem close_connection_rude (s : SockState) (f : Nat)
    (h1 : f &&& TCP_CLOSE = 0)
    (h2 : f &&& (TCP_ABORT ||| TCP_TIMEDOUT ||| NETDEV_DOWN) ≠ 0) :
    connectedBit (tcp_close_connection s f) = false ∧
    closedBit (tcp_close_connection s f) = false := by
  unfold tcp_close_connection
  rw [if_neg (by simp [h1]), if_pos h2]
  constructor
  · simp [connectedBit, testBit_landNot, Nat.testBit_or, SF_CONNECTED_testBit,
      SF_CLOSED_testBit]
  · simp [closedBit, testBit_landNot, Nat.testBit_or, SF_CONNECTED_testBit,
      SF_CLOSED_testBit]

/-- With no loss-of-connection bit, `tcp_close_connection` is the
identity. -/
theorem close_connection_id (s : SockState) (f : Nat)
    (h1 : f &&& TCP_CLOSE = 0)
    (h2 : f &&& (TCP_ABORT ||| TCP_TIMEDOUT ||| NETDEV_DOWN) = 0) :
    tcp_close_connection s f = s := by
  unfold tcp_close_connection
  rw [if_neg (by simp [h1]), if_neg (by simp [h2])]

/-- The helper `tcp_close_connection` never touches the socket error number. -/
theorem close_connection_error (s : SockState) (f : Nat) :
    (tcp_close_connection s f).s_error = s.s_error := by
  unfold tcp_close_connection
  split
  · rfl
  · split <;> rfl

/-- The helper `tcp_close_connection` never touches status bits other than
`CONNECTED` and `CLOSED`. -/
theorem close_connection_frame (s : SockState) (f i : Nat)
    (hc : i ≠ 3) (hd : i ≠ 4) :
    (tcp_close_connection s f).s_flags.testBit i = s.s_flags.testBit i := by
  unfold tcp_close_connection
  split
  · simp [Nat.testBit_or, testBit_landNot, SF_CONNECTED_testBit, SF_CLOSED_testBit,
      Ne.symm hc, Ne.symm hd]
  · split
    · simp [testBit_landNot, Nat.testBit_or, SF_CONNECTED_testBit, SF_CLOSED_testBit,
        Ne.symm hc, Ne.symm hd]
    · rfl

/-- Updating a socket map reads back the new state at the updated id. -/
theorem updSock_self (socks : Nat → SockState) (sid : Nat) (s : SockState) :
    updSock socks sid s sid = s := by
  simp [updSock]

/-- Updating a socket map leaves every other id unchanged. -/
theorem updSock_other (socks : Nat → SockState) (sid : Nat) (s : SockState)
    (t : Nat) (h : t ≠ sid) : updSock socks sid s t = socks t := by
  simp [updSock, h]

/-- The monitor's handler returns its input flags unchanged. -/
theorem monitor_event_flags (p : Option Nat) (f : Nat) (socks : Nat → SockState) :
    (tcp_monitor_event p f socks).2 = f := by
  cases p with
  | none => rfl
  | some sid =>
      simp only [tcp_monitor_event]
      split
      · rfl
      · split <;> rfl

/-- The monitor's handler only mutates the socket its `priv` names. -/
theorem monitor_event_other (p : Option Nat) (f : Nat) (socks : Nat → SockState)
    (t : Nat) (h : p ≠ some t) : (tcp_monitor_event p f socks).1 t = socks t := by
  cases p with
  | none => rfl
  | some sid =>
      have hts : t ≠ sid := fun he => h (by rw [he])
      simp only [tcp_monitor_event]
      split
      · exact updSock_other _ _ _ _ hts
      · split
        · exact updSock_other _ _ _ _ hts
        · rfl

/-- Bits of the status word produced by the `TCP_CONNECTED` branch of
the handler. -/
theorem connected_update_bits (x : Nat) :
    (landNot (x ||| (_SF_BOUND ||| _SF_CONNECTED)) _SF_CLOSED).testBit 3 = true ∧
    (landNot (x ||| (_SF_BOUND ||| _SF_CONNECTED)) _SF_CLOSED).testBit 4 = false ∧
    (landNot (x ||| (_SF_BOUND ||| _SF_CONNECTED)) _SF_CLOSED).testBit 2 = true := by
  refine ⟨?_, ?_, ?_⟩ <;>
    simp [testBit_landNot, Nat.testBit_or, SF_BOUND_testBit, SF_CONNECTED_testBit,
      SF_CLOSED_testBit]

/-- The helper `tcp_close_connection` at a pure `TCP_ABORT` delivery, in closed
form. -/
theorem close_connection_ABORT (s : SockState) :
    tcp_close_connection s TCP_ABORT =
      { s with s_flags := landNot s.s_flags (_SF_CONNECTED ||| _SF_CLOSED) } := by
  unfold tcp_close_connection
  rw [if_neg (by decide), if_pos (by decide)]

/-- The helper `tcp_close_connection` at a pure `TCP_CLOSE` delivery, in closed
form. -/
theorem close_connection_CLOSE (s : SockState) :
    tcp_close_connection s TCP_CLOSE =
      { s with s_flags := landNot s.s_flags _SF_CONNECTED ||| _SF_CLOSED } := by
  unfold tcp_close_connection
  rw [if_pos (by decide)]

/-- Clearing a mask twice is the same as clearing it once. -/
theorem landNot_idem (x m : Nat) : landNot (landNot x m) m = landNot x m := by
  apply Nat.eq_of_testBit_eq
  intro i
  simp only [testBit_landNot]
  cases x.testBit i <;> cases m.testBit i <;> rfl

/-- The graceful status update is idempotent on the status word. -/
theorem graceful_flags_idem (x : Nat) :
    landNot (landNot x _SF_CONNECTED ||| _SF_CLOSED) _SF_CONNECTED ||| _SF_CLOSED =
      landNot x _SF_CONNECTED ||| _SF_CLOSED := by
  apply Nat.eq_of_testBit_eq
  intro i
  simp only [Nat.testBit_or, testBit_landNot, SF_CONNECTED_testBit, SF_CLOSED_testBit]
  cases x.testBit i <;> cases decide (3 = i) <;> cases decide (4 = i) <;> rfl

/-- C3: `tcp_close_connection` implements the documented truth table:
a delivery containing `TCP_CLOSE` clears `CONNECTED` and sets `CLOSED`;
a delivery with no `TCP_CLOSE` but some rude bit clears both; and when
`TCP_CLOSE` and a rude bit appear together, the graceful branch is
taken (the result coincides with a pure `TCP_CLOSE` delivery). -/
theorem claim_C3_close_connection_truth_table (s : SockState) (f : Nat) :
    (f &&& TCP_CLOSE ≠ 0 →
      connectedBit (tcp_close_connection s f) = false ∧
      closedBit (tcp_close_connection s f) = true) ∧
    (f &&& TCP_CLOSE = 0 → f &&& (TCP_ABORT ||| TCP_TIMEDOUT ||| NETDEV_DOWN) ≠ 0 →
      connectedBit (tcp_close_connection s f) = false ∧
      closedBit (tcp_close_connection s f) = false) ∧
    (f &&& TCP_CLOSE ≠ 0 → f &&& (TCP_ABORT ||| TCP_TIMEDOUT ||| NETDEV_DOWN) ≠ 0 →
      tcp_close_connection s f = tcp_close_connection s TCP_CLOSE) := by
  refine ⟨fun h => close_connection_graceful s f h,
          fun h1 h2 => close_connection_rude s f h1 h2,
          fun h1 _ => ?_⟩
  rw [close_connection_CLOSE]
  unfold tcp_close_connection
  rw [if_pos h1]

/-- Witness for C3 at a delivery carrying both `TCP_CLOSE` and
`TCP_ABORT`. -/
theorem claim_C3_witness :
    connectedBit (tcp_close_connection ⟨_SF_CONNECTED, 0⟩ (TCP_CLOSE ||| TCP_ABORT)) = false ∧
    closedBit (tcp_close_connection ⟨_SF_CONNECTED, 0⟩ (TCP_CLOSE ||| TCP_ABORT)) = true ∧
    tcp_close_connection ⟨_SF_CONNECTED, 0⟩ (TCP_CLOSE ||| TCP_ABORT) =
      tcp_close_connection ⟨_SF_CONNECTED, 0⟩ TCP_CLOSE := by
  have h := claim_C3_close_connection_truth_table ⟨_SF_CONNECTED, 0⟩ (TCP_CLOSE ||| TCP_ABORT)
  exact ⟨(h.1 (by decide)).1, (h.1 (by decide)).2, h.2.2 (by decide) (by decide)⟩

/-- C9: `tcp_close_connection` is idempotent, both for the rude
`TCP_ABORT` delivery and for the graceful `TCP_CLOSE` delivery. -/
theorem claim_C9_close_connection_idempotent (s : SockState) :
    tcp_close_connection (tcp_close_connection s TCP_ABORT) TCP_ABORT =
      tcp_close_connection s TCP_ABORT ∧
    tcp_close_connection (tcp_close_connection s TCP_CLOSE) TCP_CLOSE =
      tcp_close_connection s TCP_CLOSE := by
  constructor
  · rw [close_connection_ABORT, close_connection_ABORT]
    simp [landNot_idem]
  · rw [close_connection_CLOSE, close_connection_CLOSE]
    simp [graceful_flags_idem]

/-- The handler never touches status bits other than `BOUND`,
`CONNECTED`, `CLOSED`, on any socket. -/
theorem monitor_event_frame (p : Option Nat) (f : Nat) (socks : Nat → SockState)
    (t i : Nat) (h2 : i ≠ 2) (h3 : i ≠ 3) (h4 : i ≠ 4) :
    ((tcp_monitor_event p f socks).1 t).s_flags.testBit i =
      (socks t).s_flags.testBit i := by
  cases p with
  | none => rfl
  | some sid =>
      simp only [tcp_monitor_event]
      split
      · dsimp only
        rcases Decidable.em (t = sid) with he | he
        · subst he
          rw [updSock_self]
          exact close_connection_frame _ _ _ h3 h4
        · rw [updSock_other _ _ _ _ he]
      · split
        · dsimp only
          rcases Decidable.em (t = sid) with he | he
          · subst he
            rw [updSock_self]
            simp [testBit_landNot, Nat.testBit_or, SF_BOUND_testBit, SF_CONNECTED_testBit,
              SF_CLOSED_testBit, Ne.symm h2, Ne.symm h3, Ne.symm h4]
          · rw [updSock_other _ _ _ _ he]
        · rfl

/-- C10: the monitor's flag mutations (`tcp_close_connection` and
`tcp_monitor_event`) change only the `BOUND`, `CONNECTED` and `CLOSED`
bits of the status word; every bit outside those masks — in particular
`NONBLOCK` — is preserved. -/
theorem claim_C10_flag_frame (s : SockState) (socks : Nat → SockState)
    (p : Option Nat) (f t i : Nat)
    (hb : _SF_BOUND.testBit i = false)
    (hc : _SF_CONNECTED.testBit i = false)
    (hd : _SF_CLOSED.testBit i = false) :
    (tcp_close_connection s f).s_flags.testBit i = s.s_flags.testBit i ∧
    ((tcp_monitor_event p f socks).1 t).s_flags.testBit i =
      (socks t).s_flags.testBit i := by
  rw [SF_BOUND_testBit] at hb
  rw [SF_CONNECTED_testBit] at hc
  rw [SF_CLOSED_testBit] at hd
  have h2 : (2 : Nat) ≠ i := of_decide_eq_false hb
  have h3 : (3 : Nat) ≠ i := of_decide_eq_false hc
  have h4 : (4 : Nat) ≠ i := of_decide_eq_false hd
  exact ⟨close_connection_frame s f i (Ne.symm h3) (Ne.symm h4),
         monitor_event_frame p f socks t i (Ne.symm h2) (Ne.symm h3) (Ne.symm h4)⟩

/-- Witness for C10: a `TCP_CLOSE` delivery to a connected nonblocking
socket preserves the `NONBLOCK` bit (bit 0). -/
theorem claim_C10_witness :
    (tcp_close_connection ⟨_SF_NONBLOCK ||| _SF_CONNECTED, 0⟩ TCP_CLOSE).s_flags.testBit 0 =
      (⟨_SF_NONBLOCK ||| _SF_CONNECTED, 0⟩ : SockState).s_flags.testBit 0 ∧
    ((tcp_monitor_event (some 0) TCP_CLOSE
        (fun _ => ⟨_SF_NONBLOCK ||| _SF_CONNECTED, 0⟩)).1 0).s_flags.testBit 0 =
      ((fun _ => (⟨_SF_NONBLOCK ||| _SF_CONNECTED, 0⟩ : SockState)) 0).s_flags.testBit 0 :=
  claim_C10_flag_frame ⟨_SF_NONBLOCK ||| _SF_CONNECTED, 0⟩
    (fun _ => ⟨_SF_NONBLOCK ||| _SF_CONNECTED, 0⟩) (some 0) TCP_CLOSE 0 0
    (by decide) (by decide) (by decide)

/-- C8 as stated is false: `TCP_ABORT ||| TCP_CONNECTED` contains a
disconnect event and `TCP_CONNECTED`, yet the handler leaves the socket
with `CLOSED = 0`, not `CLOSED = 1`. -/
theorem claim_C8_counterexample :
    ((TCP_ABORT ||| TCP_CONNECTED) &&& TCP_DISCONN_EVENTS ≠ 0) ∧
    ((TCP_ABORT ||| TCP_CONNECTED) &&& TCP_CONNECTED ≠ 0) ∧
    closedBit ((tcp_monitor_event (some 0) (TCP_ABORT ||| TCP_CONNECTED)
      (fun _ => ⟨_SF_CONNECTED, 0⟩)).1 0) = false := by decide

/-- C8 amended: on a delivery containing both a disconnect event and
`TCP_CONNECTED`, the handler takes only the disconnect branch — the
socket ends with `CONNECTED = 0`, with `CLOSED = 1` exactly when
`TCP_CLOSE` is among the delivered bits, and the socket error is left
alone; the `TCP_CONNECTED` branch (set `BOUND` and `CONNECTED`, clear
`CLOSED`, clear the error) runs only when no disconnect bit is
present. -/
theorem claim_C8_close_beats_connect (socks : Nat → SockState) (sid f : Nat)
    (hd : f &&& TCP_DISCONN_EVENTS ≠ 0) (_hc : f &&& TCP_CONNECTED ≠ 0) :
    (tcp_monitor_event (some sid) f socks).1 =
        updSock socks sid (tcp_close_connection (socks sid) f) ∧
    connectedBit ((tcp_monitor_event (some sid) f socks).1 sid) = false ∧
    (closedBit ((tcp_monitor_event (some sid) f socks).1 sid) = true ↔
      f &&& TCP_CLOSE ≠ 0) ∧
    ((tcp_monitor_event (some sid) f socks).1 sid).s_error = (socks sid).s_error ∧
    (∀ g, g &&& TCP_DISCONN_EVENTS = 0 → g &&& TCP_CONNECTED ≠ 0 →
      connectedBit ((tcp_monitor_event (some sid) g socks).1 sid) = true ∧
      closedBit ((tcp_monitor_event (some sid) g socks).1 sid) = false ∧
      boundBit ((tcp_monitor_event (some sid) g socks).1 sid) = true ∧
      ((tcp_monitor_event (some sid) g socks).1 sid).s_error = OK) := by
  have hres : (tcp_monitor_event (some sid) f socks).1 =
      updSock socks sid (tcp_close_connection (socks sid) f) := by
    simp only [tcp_monitor_event]
    rw [if_pos hd]
  have hat : (tcp_monitor_event (some sid) f socks).1 sid =
      tcp_close_connection (socks sid) f := by
    rw [hres, updSock_self]
  refine ⟨hres, ?_, ?_, ?_, ?_⟩
  · rw [hat]
    rcases Decidable.em (f &&& TCP_CLOSE = 0) with h0 | h0
    · rcases (and_disconn_split f).mp hd with hg | hr
      · exact (hg h0).elim
      · exact (close_connection_rude _ _ h0 hr).1
    · exact (close_connection_graceful _ _ h0).1
  · rw [hat]
    constructor
    · intro hcl
      by_contra h0
      rcases (and_disconn_split f).mp hd with hg | hr
      · exact hg h0
      · rw [(close_connection_rude _ _ h0 hr).2] at hcl
        simp at hcl
    · intro hg
      exact (close_connection_graceful _ _ hg).2
  · rw [hat, close_connection_error]
  · intro g hg0 hgc
    have hg : (tcp_monitor_event (some sid) g socks).1 sid =
        { s_flags := landNot ((socks sid).s_flags ||| (_SF_BOUND ||| _SF_CONNECTED)) _SF_CLOSED,
          s_error := OK } := by
      simp only [tcp_monitor_event]
      rw [if_neg (by simp [hg0]), if_pos hgc]
      dsimp only
      rw [updSock_self]
    rw [hg]
    have hb := connected_update_bits ((socks sid).s_flags)
    exact ⟨hb.1, hb.2.1, hb.2.2, rfl⟩

/-- Witness for the amended C8 at `TCP_CLOSE ||| TCP_CONNECTED` (and
`TCP_CONNECTED` alone for the connect branch). -/
theorem claim_C8_witness :
    connectedBit ((tcp_monitor_event (some 0) (TCP_CLOSE ||| TCP_CONNECTED)
      (fun _ => ⟨_SF_CONNECTED, 5⟩)).1 0) = false ∧
    (closedBit ((tcp_monitor_event (some 0) (TCP_CLOSE ||| TCP_CONNECTED)
      (fun _ => ⟨_SF_CONNECTED, 5⟩)).1 0) = true ↔
      (TCP_CLOSE ||| TCP_CONNECTED) &&& TCP_CLOSE ≠ 0) ∧
    ((tcp_monitor_event (some 0) (TCP_CLOSE ||| TCP_CONNECTED)
      (fun _ => ⟨_SF_CONNECTED, 5⟩)).1 0).s_error = 5 ∧
    connectedBit ((tcp_monitor_event (some 0) TCP_CONNECTED
      (fun _ => ⟨_SF_CONNECTED, 5⟩)).1 0) = true := by
  have h := claim_C8_close_beats_connect (fun _ => ⟨_SF_CONNECTED, 5⟩) 0
    (TCP_CLOSE ||| TCP_CONNECTED) (by decide) (by decide)
  exact ⟨h.2.1, h.2.2.1, h.2.2.2.1, (h.2.2.2.2 TCP_CONNECTED (by decide) (by decide)).1⟩

/-- Property P1 on one socket: `CONNECTED` and `CLOSED` are never both
set. -/
def P1 (s : SockState) : Prop :=
  ¬(connectedBit s = true ∧ closedBit s = true)

/-- Property P1 on every socket of the map. -/
def flagsInv (socks : Nat → SockState) : Prop :=
  ∀ t, P1 (socks t)

/-- The helper `tcp_close_connection` preserves P1 (and establishes it outright in
its two mutating branches). -/
theorem close_connection_P1 (s : SockState) (f : Nat) (h : P1 s) :
    P1 (tcp_close_connection s f) := by
  rcases Decidable.em (f &&& TCP_CLOSE = 0) with h1 | h1
  · rcases Decidable.em (f &&& (TCP_ABORT ||| TCP_TIMEDOUT ||| NETDEV_DOWN) = 0) with h2 | h2
    · rw [close_connection_id s f h1 h2]
      exact h
    · intro hc
      rw [(close_connection_rude s f h1 h2).1] at hc
      simp at hc
  · intro hc
    rw [(close_connection_graceful s f h1).1] at hc
    simp at hc

/-- The handler preserves P1 on every socket. -/
theorem monitor_event_P1 (p : Option Nat) (f : Nat) (socks : Nat → SockState)
    (h : flagsInv socks) : flagsInv (tcp_monitor_event p f socks).1 := by
  intro t
  cases p with
  | none => exact h t
  | some sid =>
      simp only [tcp_monitor_event]
      split
      · dsimp only
        rcases Decidable.em (t = sid) with he | he
        · subst he
          rw [updSock_self]
          exact close_connection_P1 _ _ (h t)
        · rw [updSock_other _ _ _ _ he]
          exact h t
      · split
        · dsimp only
          rcases Decidable.em (t = sid) with he | he
          · subst he
            rw [updSock_self]
            intro hc
            have hcl : closedBit
                { s_flags := landNot ((socks t).s_flags ||| (_SF_BOUND ||| _SF_CONNECTED))
                    _SF_CLOSED,
                  s_error := OK } = false :=
              (connected_update_bits ((socks t).s_flags)).2.1
            rw [hcl] at hc
            simp at hc
          · rw [updSock_other _ _ _ _ he]
            exact h t
        · exact h t

/-- The dispatch walk preserves P1 on every socket. -/
theorem devif_conn_event_P1 (cbs : List Cb) (f : Nat) (socks : Nat → SockState)
    (h : flagsInv socks) : flagsInv (devif_conn_event cbs f socks).1 := by
  induction cbs generalizing f socks with
  | nil => exact h
  | cons cb rest ih =>
      simp only [devif_conn_event]
      split
      · split
        · exact ih _ _ (monitor_event_P1 _ _ _ h)
        · exact ih _ _ h
      · exact ih _ _ h

/-- The operation `tcp_shutdown_monitor` preserves P1 on every socket. -/
theorem shutdown_monitor_P1 (net : Net) (f : Nat) (h : flagsInv net.socks) :
    flagsInv (tcp_shutdown_monitor net f).socks :=
  devif_conn_event_P1 net.conn.connevents f net.socks h

/-- C2: every monitor entry point — `tcp_start_monitor`,
`tcp_stop_monitor`, `tcp_close_monitor`, `tcp_lost_connection`, and the
internal dispatch through `tcp_monitor_event` — preserves, for every
socket, the invariant that `CONNECTED` and `CLOSED` are never both
set. -/
theorem claim_C2_no_connected_and_closed (net : Net) (sid : Nat) (cbi : Option Nat)
    (f : Nat) (p : Option Nat) (h : flagsInv net.socks) :
    flagsInv (tcp_start_monitor net sid).1.socks ∧
    flagsInv (tcp_stop_monitor net f).socks ∧
    flagsInv (tcp_close_monitor net sid).socks ∧
    flagsInv (tcp_lost_connection net sid cbi f).socks ∧
    flagsInv (tcp_monitor_event p f net.socks).1 := by
  refine ⟨?_, shutdown_monitor_P1 net f h, ?_, ?_, monitor_event_P1 p f net.socks h⟩
  · unfold tcp_start_monitor
    dsimp only
    split
    · exact shutdown_monitor_P1 net TCP_CLOSE h
    · split
      · exact h
      · exact h
  · unfold tcp_close_monitor
    split
    · intro t
      dsimp only
      rcases Decidable.em (t = sid) with he | he
      · subst he
        rw [updSock_self]
        exact close_connection_P1 _ _ (h t)
      · rw [updSock_other _ _ _ _ he]
        exact h t
    · intro t
      dsimp only
      rcases Decidable.em (t = sid) with he | he
      · subst he
        rw [updSock_self]
        exact close_connection_P1 _ _ (h t)
      · rw [updSock_other _ _ _ _ he]
        exact h t
  · unfold tcp_lost_connection
    apply shutdown_monitor_P1
    intro t
    dsimp only
    cases cbi with
    | none =>
        dsimp only
        rcases Decidable.em (t = sid) with he | he
        · subst he
          rw [updSock_self]
          exact close_connection_P1 _ _ (h t)
        · rw [updSock_other _ _ _ _ he]
          exact h t
    | some i =>
        dsimp only
        rcases Decidable.em (t = sid) with he | he
        · subst he
          rw [updSock_self]
          exact close_connection_P1 _ _ (h t)
        · rw [updSock_other _ _ _ _ he]
          exact h t

/-- A live connected socket used by the concrete scenarios. -/
def sockW : SockState := ⟨_SF_CONNECTED, 0⟩

/-- The monitor callback record `tcp_start_monitor` registers for
socket 0 on a blocking connection. -/
def cbW : Cb :=
  { flags := TCP_DISCONN_EVENTS, priv := some 0, event := some Handler.monitorEvent }

/-- A world with one monitored established connection and one spare
pool record. -/
def netW : Net :=
  { socks := fun _ => sockW,
    conn := { tcpstateflags := TcpState.TCP_ESTABLISHED, connevents := [cbW] },
    pool := [nullCb] }

/-- Witness for C2 on the concrete world `netW`. -/
theorem claim_C2_witness :
    flagsInv (tcp_start_monitor netW 0).1.socks ∧
    flagsInv (tcp_stop_monitor netW TCP_ABORT).socks ∧
    flagsInv (tcp_close_monitor netW 0).socks ∧
    flagsInv (tcp_lost_connection netW 0 (some 0) TCP_ABORT).socks ∧
    flagsInv (tcp_monitor_event (some 0) TCP_ABORT netW.socks).1 :=
  claim_C2_no_connected_and_closed netW 0 (some 0) TCP_ABORT (some 0)
    (fun _ => show ¬(connectedBit sockW = true ∧ closedBit sockW = true) by decide)

/-- Freeing a list of records grows the pool by exactly its length. -/
theorem freeAllCb_length (cbs pool : List Cb) :
    (freeAllCb cbs pool).length = cbs.length + pool.length := by
  induction cbs generalizing pool with
  | nil => simp [freeAllCb]
  | cons cb rest ih =>
      simp only [freeAllCb, ih, List.length_cons]
      omega

/-- Records already in the pool stay in the pool while freeing. -/
theorem freeAllCb_mem_pool (cbs pool : List Cb) (cb : Cb) (h : cb ∈ pool) :
    cb ∈ freeAllCb cbs pool := by
  induction cbs generalizing pool with
  | nil => exact h
  | cons c rest ih => exact ih (c :: pool) (List.mem_cons_of_mem c h)

/-- Every freed record ends up in the pool. -/
theorem freeAllCb_mem (cbs pool : List Cb) (cb : Cb) (h : cb ∈ cbs) :
    cb ∈ freeAllCb cbs pool := by
  induction cbs generalizing pool with
  | nil => cases h
  | cons c rest ih =>
      rcases List.mem_cons.mp h with he | hm
      · subst he
        exact freeAllCb_mem_pool rest (cb :: pool) cb (List.mem_cons_self cb pool)
      · exact ih (c :: pool) hm

/-- C7: after `tcp_shutdown_monitor` — and hence after its thin wrapper
`tcp_stop_monitor` — the connection's callback list is empty and every
callback record has been freed back to the device pool. -/
theorem claim_C7_shutdown_empties_list (net : Net) (f : Nat) :
    (tcp_shutdown_monitor net f).conn.connevents = [] ∧
    (tcp_shutdown_monitor net f).pool.length =
      net.conn.connevents.length + net.pool.length ∧
    (∀ cb ∈ net.conn.connevents, cb ∈ (tcp_shutdown_monitor net f).pool) ∧
    (tcp_stop_monitor net f).conn.connevents = [] ∧
    (tcp_stop_monitor net f).pool.length =
      net.conn.connevents.length + net.pool.length ∧
    (∀ cb ∈ net.conn.connevents, cb ∈ (tcp_stop_monitor net f).pool) :=
  ⟨rfl, freeAllCb_length _ _, fun cb h => freeAllCb_mem _ _ cb h,
   rfl, freeAllCb_length _ _, fun cb h => freeAllCb_mem _ _ cb h⟩

/-- Witness for C7 on the concrete world `netW`. -/
theorem claim_C7_witness :
    (tcp_shutdown_monitor netW TCP_ABORT).conn.connevents = [] ∧
    (tcp_shutdown_monitor netW TCP_ABORT).pool.length =
      netW.conn.connevents.length + netW.pool.length ∧
    cbW ∈ (tcp_shutdown_monitor netW TCP_ABORT).pool ∧
    (tcp_stop_monitor netW TCP_ABORT).conn.connevents = [] := by
  have h := claim_C7_shutdown_empties_list netW TCP_ABORT
  exact ⟨h.1, h.2.1, h.2.2.1 cbW (by decide), h.2.2.2.1⟩

/-- The socket map after `tcp_close_monitor`: only the closed socket is
rewritten, by the graceful close helper. -/
theorem close_monitor_socks (net : Net) (sid : Nat) :
    (tcp_close_monitor net sid).socks =
      updSock net.socks sid (tcp_close_connection (net.socks sid) TCP_CLOSE) := by
  unfold tcp_close_monitor
  split <;> rfl

/-- Behavior of `tcp_close_monitor` when the scan finds a record: that record moves
from the connection list to the pool. -/
theorem close_monitor_found (net : Net) (sid : Nat) (cb0 : Cb)
    (h : findCb sid net.conn.connevents = some cb0) :
    (tcp_close_monitor net sid).conn.connevents =
      removeFirstCb sid net.conn.connevents ∧
    (tcp_close_monitor net sid).pool = cb0 :: net.pool := by
  unfold tcp_close_monitor
  rw [h]
  exact ⟨rfl, rfl⟩

/-- Behavior of `tcp_close_monitor` when the scan finds nothing: list and pool are
untouched. -/
theorem close_monitor_notfound (net : Net) (sid : Nat)
    (h : findCb sid net.conn.connevents = none) :
    (tcp_close_monitor net sid).conn.connevents = net.conn.connevents ∧
    (tcp_close_monitor net sid).pool = net.pool := by
  unfold tcp_close_monitor
  rw [h]
  exact ⟨rfl, rfl⟩

/-- The scan returns `none` exactly when no record belongs to the
socket. -/
theorem findCb_none_iff (sid : Nat) (cbs : List Cb) :
    findCb sid cbs = none ↔ ∀ cb ∈ cbs, cb.priv ≠ some sid := by
  induction cbs with
  | nil => simp [findCb]
  | cons c rest ih =>
      simp only [findCb]
      rcases Decidable.em (c.priv = some sid) with he | he
      · rw [if_pos he]
        simp [he]
      · rw [if_neg he]
        rw [ih]
        constructor
        · intro h cb hm
          rcases List.mem_cons.mp hm with h1 | h1
          · subst h1
            exact he
          · exact h cb h1
        · intro h cb hm
          exact h cb (List.mem_cons_of_mem c hm)

/-- Removing the record of one socket keeps every record of every other
socket. -/
theorem removeFirstCb_mem_of_ne (sid : Nat) (cbs : List Cb) (cb : Cb)
    (hm : cb ∈ cbs) (hp : cb.priv ≠ some sid) : cb ∈ removeFirstCb sid cbs := by
  induction cbs with
  | nil => cases hm
  | cons c rest ih =>
      simp only [removeFirstCb]
      rcases Decidable.em (c.priv = some sid) with he | he
      · rw [if_pos he]
        rcases List.mem_cons.mp hm with h1 | h1
        · subst h1
          exact absurd he hp
        · exact h1
      · rw [if_neg he]
        rcases List.mem_cons.mp hm with h1 | h1
        · subst h1
          exact List.mem_cons_self cb _
        · exact List.mem_cons_of_mem c (ih h1)

/-- When some record matches, removal shortens the list by exactly
one. -/
theorem removeFirstCb_length (sid : Nat) (cbs : List Cb)
    (h : ∃ cb ∈ cbs, cb.priv = some sid) :
    (removeFirstCb sid cbs).length + 1 = cbs.length := by
  induction cbs with
  | nil =>
      rcases h with ⟨cb, hm, -⟩
      cases hm
  | cons c rest ih =>
      simp only [removeFirstCb]
      rcases Decidable.em (c.priv = some sid) with he | he
      · rw [if_pos he]
        rfl
      · rw [if_neg he]
        have hrest : ∃ cb ∈ rest, cb.priv = some sid := by
          rcases h with ⟨cb, hm, hp⟩
          rcases List.mem_cons.mp hm with h1 | h1
          · subst h1
            exact absurd hp he
          · exact ⟨cb, h1, hp⟩
        simp only [List.length_cons, ← ih hrest]

/-- C5: closing one of two sockets monitored on the same connection
frees exactly the first record owned by the closed socket, marks the
closed socket gracefully disconnected, and leaves the other socket's
flags and callback record untouched — no notification is delivered. -/
theorem claim_C5_close_monitor_frame (net : Net) (s1 s2 : Nat) (hne : s1 ≠ s2) :
    (tcp_close_monitor net s1).socks s2 = net.socks s2 ∧
    (∀ t, t ≠ s1 → (tcp_close_monitor net s1).socks t = net.socks t) ∧
    connectedBit ((tcp_close_monitor net s1).socks s1) = false ∧
    closedBit ((tcp_close_monitor net s1).socks s1) = true ∧
    (∀ cb ∈ net.conn.connevents, cb.priv = some s2 →
      cb ∈ (tcp_close_monitor net s1).conn.connevents) ∧
    ((∃ cb ∈ net.conn.connevents, cb.priv = some s1) →
      (tcp_close_monitor net s1).conn.connevents.length + 1 =
        net.conn.connevents.length) ∧
    ((∀ cb ∈ net.conn.connevents, cb.priv ≠ some s1) →
      (tcp_close_monitor net s1).conn.connevents = net.conn.connevents) := by
  refine ⟨?_, ?_, ?_, ?_, ?_, ?_, ?_⟩
  · rw [close_monitor_socks, updSock_other _ _ _ _ (Ne.symm hne)]
  · intro t ht
    rw [close_monitor_socks, updSock_other _ _ _ _ ht]
  · rw [close_monitor_socks, updSock_self]
    exact (close_connection_graceful _ _ (by decide)).1
  · rw [close_monitor_socks, updSock_self]
    exact (close_connection_graceful _ _ (by decide)).2
  · intro cb hm hp
    cases hf : findCb s1 net.conn.connevents with
    | none =>
        rw [(close_monitor_notfound net s1 hf).1]
        exact hm
    | some cb0 =>
        rw [(close_monitor_found net s1 cb0 hf).1]
        apply removeFirstCb_mem_of_ne s1 _ cb hm
        rw [hp]
        intro he
        exact hne (Option.some.inj he).symm
  · intro hex
    cases hf : findCb s1 net.conn.connevents with
    | none =>
        rcases hex with ⟨cb, hm, hp⟩
        exact absurd hp ((findCb_none_iff s1 net.conn.connevents).mp hf cb hm)
    | some cb0 =>
        rw [(close_monitor_found net s1 cb0 hf).1]
        exact removeFirstCb_length s1 net.conn.connevents hex
  · intro hall
    exact (close_monitor_notfound net s1 ((findCb_none_iff s1 _).mpr hall)).1

/-- A monitor record owned by socket 1 on the shared connection. -/
def cbS1 : Cb :=
  { flags := TCP_DISCONN_EVENTS, priv := some 1, event := some Handler.monitorEvent }

/-- A monitor record owned by socket 2 on the shared connection. -/
def cbS2 : Cb :=
  { flags := TCP_DISCONN_EVENTS, priv := some 2, event := some Handler.monitorEvent }

/-- Two sockets dup-sharing one established monitored connection. -/
def netC5 : Net :=
  { socks := fun _ => sockW,
    conn := { tcpstateflags := TcpState.TCP_ESTABLISHED, connevents := [cbS1, cbS2] },
    pool := [] }

/-- Witness for C5: closing socket 1 on the dup'd connection. -/
theorem claim_C5_witness :
    (tcp_close_monitor netC5 1).socks 2 = netC5.socks 2 ∧
    connectedBit ((tcp_close_monitor netC5 1).socks 1) = false ∧
    closedBit ((tcp_close_monitor netC5 1).socks 1) = true ∧
    cbS2 ∈ (tcp_close_monitor netC5 1).conn.connevents ∧
    (tcp_close_monitor netC5 1).conn.connevents.length + 1 =
      netC5.conn.connevents.length := by
  have h := claim_C5_close_monitor_frame netC5 1 2 (by decide)
  exact ⟨h.1, h.2.2.1, h.2.2.2.1, h.2.2.2.2.1 cbS2 (by decide) rfl,
    h.2.2.2.2.2.1 ⟨cbS1, by decide, rfl⟩⟩

/-- The dispatch walk never touches a socket owned by none of the
callbacks. -/
theorem devif_conn_event_other (cbs : List Cb) (t : Nat) :
    ∀ (f : Nat) (socks : Nat → SockState), (∀ cb ∈ cbs, cb.priv ≠ some t) →
      (devif_conn_event cbs f socks).1 t = socks t := by
  induction cbs with
  | nil =>
      intro f socks _
      rfl
  | cons cb rest ih =>
      intro f socks h
      simp only [devif_conn_event]
      split
      · split
        · rw [ih _ _ (fun c hm => h c (List.mem_cons_of_mem _ hm))]
          exact monitor_event_other cb.priv f socks t (h cb (List.mem_cons_self _ _))
        · exact ih _ _ (fun c hm => h c (List.mem_cons_of_mem _ hm))
      · exact ih _ _ (fun c hm => h c (List.mem_cons_of_mem _ hm))

/-- Delivering a disconnect event to a socket's handler leaves the
socket with `CONNECTED = 0` and `CLOSED` set exactly for a graceful
close. -/
theorem monitor_event_disconn_sets (socks : Nat → SockState) (sid f : Nat)
    (hd : f &&& TCP_DISCONN_EVENTS ≠ 0) :
    connectedBit ((tcp_monitor_event (some sid) f socks).1 sid) = false ∧
    closedBit ((tcp_monitor_event (some sid) f socks).1 sid) =
      decide (f &&& TCP_CLOSE ≠ 0) := by
  simp only [tcp_monitor_event]
  rw [if_pos hd]
  dsimp only
  rw [updSock_self]
  rcases Decidable.em (f &&& TCP_CLOSE = 0) with h0 | h0
  · rcases (and_disconn_split f).mp hd with hg | hr
    · exact (hg h0).elim
    · have h := close_connection_rude (socks sid) f h0 hr
      refine ⟨h.1, ?_⟩
      rw [h.2]
      exact (decide_eq_false (fun hh => hh h0)).symm
  · have h := close_connection_graceful (socks sid) f h0
    refine ⟨h.1, ?_⟩
    rw [h.2]
    exact (decide_eq_true h0).symm

/-- Once a socket shows the disconnect outcome for `f`, a full dispatch
walk of `f` preserves it. -/
theorem devif_disconn_preserves (cbs : List Cb) (sid f : Nat)
    (hd : f &&& TCP_DISCONN_EVENTS ≠ 0) :
    ∀ socks : Nat → SockState,
      connectedBit (socks sid) = false →
      closedBit (socks sid) = decide (f &&& TCP_CLOSE ≠ 0) →
      connectedBit ((devif_conn_event cbs f socks).1 sid) = false ∧
      closedBit ((devif_conn_event cbs f socks).1 sid) =
        decide (f &&& TCP_CLOSE ≠ 0) := by
  induction cbs with
  | nil =>
      intro socks h1 h2
      exact ⟨h1, h2⟩
  | cons cb rest ih =>
      intro socks h1 h2
      simp only [devif_conn_event]
      split
      · split
        · rw [monitor_event_flags]
          have hAB : connectedBit ((tcp_monitor_event cb.priv f socks).1 sid) = false ∧
              closedBit ((tcp_monitor_event cb.priv f socks).1 sid) =
                decide (f &&& TCP_CLOSE ≠ 0) := by
            cases hp : cb.priv with
            | none => exact ⟨h1, h2⟩
            | some u =>
                rcases Decidable.em (u = sid) with he | he
                · subst he
                  exact monitor_event_disconn_sets socks u f hd
                · have ho := monitor_event_other (some u) f socks sid
                    (fun hh => he (Option.some.inj hh))
                  rw [ho]
                  exact ⟨h1, h2⟩
          exact ih _ hAB.1 hAB.2
        · exact ih _ h1 h2
      · exact ih _ h1 h2

/-- If the list holds a live monitor record for the socket whose filter
passes `f`, a dispatch walk of a disconnect event `f` drives the socket
to the disconnect outcome. -/
theorem devif_disconn_establishes (cbs : List Cb) (sid f : Nat)
    (hd : f &&& TCP_DISCONN_EVENTS ≠ 0) :
    ∀ socks : Nat → SockState,
      (∃ cb ∈ cbs, cb.priv = some sid ∧ cb.event = some Handler.monitorEvent ∧
        f &&& cb.flags ≠ 0) →
      connectedBit ((devif_conn_event cbs f socks).1 sid) = false ∧
      closedBit ((devif_conn_event cbs f socks).1 sid) =
        decide (f &&& TCP_CLOSE ≠ 0) := by
  induction cbs with
  | nil =>
      intro socks h
      rcases h with ⟨cb, hm, -⟩
      cases hm
  | cons cb rest ih =>
      intro socks h
      rcases h with ⟨c, hm, hp, hev, htr⟩
      rcases List.mem_cons.mp hm with he | hmr
      · subst he
        simp only [devif_conn_event]
        rw [if_pos htr, hev]
        rw [monitor_event_flags, hp]
        exact devif_disconn_preserves rest sid f hd _
          (monitor_event_disconn_sets socks sid f hd).1
          (monitor_event_disconn_sets socks sid f hd).2
      · simp only [devif_conn_event]
        split
        · split
          · rw [monitor_event_flags]
            exact ih _ ⟨c, hmr, hp, hev, htr⟩
          · exact ih _ ⟨c, hmr, hp, hev, htr⟩
        · exact ih _ ⟨c, hmr, hp, hev, htr⟩

/-- A socket that believes it is connected, on a connection that was
closed before any monitor callback was registered. -/
def netC1 : Net :=
  { socks := fun _ => sockW,
    conn := { tcpstateflags := TcpState.TCP_CLOSED, connevents := [] },
    pool := [] }

/-- C1 as stated is false: with no callback registered (the normal
situation when `tcp_start_monitor` is first called), the synthetic
`TCP_CLOSE` reaches nobody — the call returns `-ENOTCONN` but the
caller's socket keeps `CONNECTED = 1`, `CLOSED = 0`. -/
theorem claim_C1_counterexample :
    (tcp_start_monitor netC1 0).2 = -ENOTCONN ∧
    connectedBit ((tcp_start_monitor netC1 0).1.socks 0) = true ∧
    closedBit ((tcp_start_monitor netC1 0).1.socks 0) = false := by decide

/-- C1 amended: on an unusable connection `tcp_start_monitor` returns
`-ENOTCONN`, and — provided the connection's list holds a live monitor
record for the socket whose filter passes `TCP_CLOSE` — the socket ends
with `CONNECTED = 0`, `CLOSED = 1`. -/
theorem claim_C1_notconn_close (net : Net) (sid : Nat)
    (hs1 : net.conn.tcpstateflags ≠ TcpState.TCP_ESTABLISHED)
    (hs2 : net.conn.tcpstateflags ≠ TcpState.TCP_SYN_RCVD)
    (hs3 : net.conn.tcpstateflags = TcpState.TCP_SYN_SENT →
      _SS_ISNONBLOCK (net.socks sid).s_flags = false)
    (hcb : ∃ cb ∈ net.conn.connevents, cb.priv = some sid ∧
      cb.event = some Handler.monitorEvent ∧ TCP_CLOSE &&& cb.flags ≠ 0) :
    (tcp_start_monitor net sid).2 = -ENOTCONN ∧
    connectedBit ((tcp_start_monitor net sid).1.socks sid) = false ∧
    closedBit ((tcp_start_monitor net sid).1.socks sid) = true := by
  have hcond : ¬(net.conn.tcpstateflags = TcpState.TCP_ESTABLISHED ∨
      net.conn.tcpstateflags = TcpState.TCP_SYN_RCVD ∨
      (decide (net.conn.tcpstateflags = TcpState.TCP_SYN_SENT) &&
        _SS_ISNONBLOCK (net.socks sid).s_flags) = true) := by
    rintro (h | h | h)
    · exact hs1 h
    · exact hs2 h
    · rcases Bool.and_eq_true_iff.mp h with ⟨ha, hb⟩
      rw [hs3 (of_decide_eq_true ha)] at hb
      cases hb
  have hfail : tcp_start_monitor net sid =
      (tcp_shutdown_monitor net TCP_CLOSE, -ENOTCONN) := by
    unfold tcp_start_monitor
    dsimp only
    rw [if_pos hcond]
  rw [hfail]
  have hrun := devif_disconn_establishes net.conn.connevents sid TCP_CLOSE
    (by decide) net.socks hcb
  exact ⟨rfl, hrun.1, hrun.2.trans (by decide)⟩

/-- A dup'd socket still registered on a connection that has moved to
`CLOSE_WAIT`. -/
def netC1b : Net :=
  { socks := fun _ => sockW,
    conn := { tcpstateflags := TcpState.TCP_CLOSE_WAIT, connevents := [cbW] },
    pool := [] }

/-- Witness for the amended C1 on `netC1b`. -/
theorem claim_C1_witness :
    (tcp_start_monitor netC1b 0).2 = -ENOTCONN ∧
    connectedBit ((tcp_start_monitor netC1b 0).1.socks 0) = false ∧
    closedBit ((tcp_start_monitor netC1b 0).1.socks 0) = true :=
  claim_C1_notconn_close netC1b 0 (by decide) (by decide) (fun h => by cases h)
    ⟨cbW, by decide, rfl, rfl, by decide⟩

/-- C4: `tcp_lost_connection(s, cb, ABORT)` nullifies the engine-held
record (its handler is `NULL` afterwards, and the nullified record sits
in the pool), leaves the socket rudely disconnected
(`CONNECTED = 0`, `CLOSED = 0`), and empties the connection's callback
list. -/
theorem claim_C4_lost_connection (net : Net) (sid i : Nat)
    (hi : i < net.conn.connevents.length) :
    nullCb ∈ (tcp_lost_connection net sid (some i) TCP_ABORT).pool ∧
    nullCb.event = none ∧
    connectedBit ((tcp_lost_connection net sid (some i) TCP_ABORT).socks sid) = false ∧
    closedBit ((tcp_lost_connection net sid (some i) TCP_ABORT).socks sid) = false ∧
    (tcp_lost_connection net sid (some i) TCP_ABORT).conn.connevents = [] := by
  have hmem : nullCb ∈ net.conn.connevents.set i nullCb :=
    List.mem_set net.conn.connevents i hi nullCb
  have hs1 : connectedBit
      (updSock net.socks sid (tcp_close_connection (net.socks sid) TCP_ABORT) sid) = false := by
    rw [updSock_self]
    exact (close_connection_rude _ _ (by decide) (by decide)).1
  have hs2 : closedBit
      (updSock net.socks sid (tcp_close_connection (net.socks sid) TCP_ABORT) sid) =
        decide (TCP_ABORT &&& TCP_CLOSE ≠ 0) := by
    rw [updSock_self]
    exact ((close_connection_rude _ _ (by decide) (by decide)).2).trans (by decide)
  have hrun := devif_disconn_preserves (net.conn.connevents.set i nullCb) sid TCP_ABORT
    (by decide) (updSock net.socks sid (tcp_close_connection (net.socks sid) TCP_ABORT))
    hs1 hs2
  refine ⟨?_, rfl, hrun.1, hrun.2.trans (by decide), rfl⟩
  exact freeAllCb_mem _ _ _ hmem

/-- Witness for C4: the engine loses the monitored connection of
`netW` while holding its only callback record. -/
theorem claim_C4_witness :
    nullCb ∈ (tcp_lost_connection netW 0 (some 0) TCP_ABORT).pool ∧
    connectedBit ((tcp_lost_connection netW 0 (some 0) TCP_ABORT).socks 0) = false ∧
    closedBit ((tcp_lost_connection netW 0 (some 0) TCP_ABORT).socks 0) = false ∧
    (tcp_lost_connection netW 0 (some 0) TCP_ABORT).conn.connevents = [] := by
  have h := claim_C4_lost_connection netW 0 0 (by decide)
  exact ⟨h.1, h.2.2.1, h.2.2.2.1, h.2.2.2.2⟩

/-- C6: with the pool exhausted and the connection in any usable state
(`ESTABLISHED`, `SYN_RCVD`, or a nonblocking connect in `SYN_SENT`),
`tcp_start_monitor` still returns `OK`, adds no record and changes
nothing, and a subsequent `TCP_CLOSE` delivery on the connection leaves
the (silently unmonitored) socket untouched. -/
theorem claim_C6_alloc_failure_best_effort (net : Net) (sid : Nat)
    (hpool : net.pool = [])
    (hstate : net.conn.tcpstateflags = TcpState.TCP_ESTABLISHED ∨
      net.conn.tcpstateflags = TcpState.TCP_SYN_RCVD ∨
      (net.conn.tcpstateflags = TcpState.TCP_SYN_SENT ∧
        _SS_ISNONBLOCK (net.socks sid).s_flags = true))
    (hnomon : ∀ cb ∈ net.conn.connevents, cb.priv ≠ some sid) :
    (tcp_start_monitor net sid).2 = OK ∧
    (tcp_start_monitor net sid).1.conn.connevents = net.conn.connevents ∧
    (tcp_start_monitor net sid).1.pool = net.pool ∧
    (∀ t, (tcp_start_monitor net sid).1.socks t = net.socks t) ∧
    (devif_conn_event (tcp_start_monitor net sid).1.conn.connevents TCP_CLOSE
        (tcp_start_monitor net sid).1.socks).1 sid = net.socks sid := by
  have hdisj : net.conn.tcpstateflags = TcpState.TCP_ESTABLISHED ∨
      net.conn.tcpstateflags = TcpState.TCP_SYN_RCVD ∨
      (decide (net.conn.tcpstateflags = TcpState.TCP_SYN_SENT) &&
        _SS_ISNONBLOCK (net.socks sid).s_flags) = true := by
    rcases hstate with h | h | ⟨h1, h2⟩
    · exact Or.inl h
    · exact Or.inr (Or.inl h)
    · exact Or.inr (Or.inr (Bool.and_eq_true_iff.mpr ⟨decide_eq_true h1, h2⟩))
  have hok : tcp_start_monitor net sid = (net, OK) := by
    unfold tcp_start_monitor
    dsimp only
    rw [if_neg (fun hcond => hcond hdisj), hpool]
  rw [hok]
  exact ⟨rfl, rfl, rfl, fun t => rfl,
    devif_conn_event_other net.conn.connevents sid TCP_CLOSE net.socks hnomon⟩

/-- A nonblocking socket mid-connect. -/
def sockNB : SockState := ⟨_SF_NONBLOCK, 0⟩

/-- An exhausted-pool world: nonblocking socket 1 in `SYN_SENT` asks to
be monitored while the only registered record belongs to socket 2. -/
def netC6 : Net :=
  { socks := fun _ => sockNB,
    conn := { tcpstateflags := TcpState.TCP_SYN_SENT, connevents := [cbS2] },
    pool := [] }

/-- Witness for C6 on `netC6`, exercising the nonblocking `SYN_SENT`
usable state. -/
theorem claim_C6_witness :
    (tcp_start_monitor netC6 1).2 = OK ∧
    (tcp_start_monitor netC6 1).1.conn.connevents = netC6.conn.connevents ∧
    (tcp_start_monitor netC6 1).1.pool = netC6.pool ∧
    (devif_conn_event (tcp_start_monitor netC6 1).1.conn.connevents TCP_CLOSE
        (tcp_start_monitor netC6 1).1.socks).1 1 = netC6.socks 1 := by
  have h := claim_C6_alloc_failure_best_effort netC6 1 rfl
    (Or.inr (Or.inr ⟨rfl, by decide⟩)) (by decide)
  exact ⟨h.1, h.2.1, h.2.2.1, h.2.2.2.2⟩

end TcpMonitor
